import Mathlib

/-!
Shallow embedding of the company-service (multi-tenant branch/warehouse CRUD).

The datastore is modelled as explicit lists of rows; each FastAPI handler
becomes a function `... → DB → Except Err α × DB` that threads the session
state (on an HTTP-exception path the state at the raise point is returned,
which for every handler here precedes any write).  SQLAlchemy
`scalar_one_or_none` on primary-key-filtered queries is modelled as
`List.find?`; in-place mutation of the fetched ORM row is modelled as
rewriting the first matching list element; autoincrement primary keys are
modelled by `nextSucursalId` / `nextAlmacenId` counters; `datetime.utcnow`
defaults come from a `now` field of the state.
-/

namespace CompanyService

/-- Row of the `sucursales` table (app/models/sucursal.py). -/
structure Sucursal where
  id_sucursal : Nat
  nombre : String
  direccion : String
  telefono : Option String
  estado : Bool
  fecha_creacion : Nat
  empresas_id_empresa : Nat
deriving DecidableEq, Repr

/-- Row of the `almacenes` table (app/models/almacen.py). -/
structure Almacen where
  id_almacen : Nat
  nombre : String
  descripcion : Option String
  es_principal : Bool
  estado : Bool
  fecha_creacion : Nat
  empresas_id_empresa : Nat
deriving DecidableEq, Repr

/-- Row of the `sucursales_almacenes` link table (app/models/sucursal_almacen.py). -/
structure SucursalAlmacen where
  sucursales_id_sucursal : Nat
  almacenes_id_almacen : Nat
deriving DecidableEq, Repr

/-- Row of the `usuarios_sucursales` link table (app/models/usuario_sucursal.py). -/
structure UsuarioSucursal where
  usuarios_id_usuario : Nat
  sucursales_id_sucursal : Nat
deriving DecidableEq, Repr

/-- Row of the external `usuarios` table, referenced by the raw SQL in the
routers (only the columns those queries use are modelled). -/
structure Usuario where
  id_usuario : Nat
  empresas_id_empresa : Nat
deriving DecidableEq, Repr

/-- The datastore state. -/
structure DB where
  sucursales : List Sucursal
  almacenes : List Almacen
  sucursales_almacenes : List SucursalAlmacen
  usuarios_sucursales : List UsuarioSucursal
  usuarios : List Usuario
  nextSucursalId : Nat
  nextAlmacenId : Nat
  now : Nat
deriving DecidableEq, Repr

/-- Error taxonomy of the handlers: `HTTPException(400, ...)` and
`HTTPException(404, ...)`. -/
inductive Err where
  | badRequest : String → Err
  | notFound : String → Err
deriving DecidableEq, Repr

/-- Schema `SucursalCreate` (app/schemas/sucursal.py): `estado` and `telefono` are
optional, and `almacen_id` is declared on the schema. -/
structure SucursalCreate where
  nombre : String
  direccion : String
  telefono : Option String
  estado : Option Bool
  almacen_id : Option Nat
deriving DecidableEq, Repr

/-- Schema `SucursalUpdate` (app/schemas/sucursal.py) under pydantic
`model_dump(exclude_unset=True)` semantics: the outer `Option` is
"field present in the request body".  `telefono` is a nullable column, so a
present field carries `Option String`; for the NOT NULL columns an explicit
JSON null would be rejected by the datastore at flush and is outside the
modelled behaviour. -/
structure SucursalUpdate where
  nombre : Option String
  direccion : Option String
  telefono : Option (Option String)
  estado : Option Bool
deriving DecidableEq, Repr

/-- Schema `AlmacenCreate` (app/schemas/almacen.py): requires `sucursal_id`. -/
structure AlmacenCreate where
  nombre : String
  descripcion : Option String
  es_principal : Bool
  estado : Option Bool
  sucursal_id : Nat
deriving DecidableEq, Repr

/-- Schema `AlmacenUpdate` (app/schemas/almacen.py), same presence conventions as
`SucursalUpdate`; `descripcion` is nullable. -/
structure AlmacenUpdate where
  nombre : Option String
  descripcion : Option (Option String)
  es_principal : Option Bool
  estado : Option Bool
deriving DecidableEq, Repr

/-- Schema `UsuarioSucursalCreate` (app/schemas/usuario_sucursal.py): the declared
body schema carries only `usuario_id`. -/
structure UsuarioSucursalCreate where
  usuario_id : Nat
deriving DecidableEq, Repr

/-- The body shape that the SECOND `assign_usuario_to_sucursal` definition
(sucursales.py lines 366-435) reads: it accesses
`payload.usuarios_id_usuario` and `payload.sucursales_id_sucursal`, fields
the declared `UsuarioSucursalCreate` schema does not define. -/
structure UsuarioSucursalBodyV2 where
  usuarios_id_usuario : Nat
  sucursales_id_sucursal : Nat
deriving DecidableEq, Repr

/-- Schema `UsuarioSucursalResponse` (app/schemas/usuario_sucursal.py). -/
structure UsuarioSucursalResponse where
  usuarios_id_usuario : Nat
  sucursales_id_sucursal : Nat
deriving DecidableEq, Repr

/-- Schema `SucursalAlmacenCreate` (app/schemas/sucursal_almacen.py): body for
linking a warehouse with a branch. -/
structure SucursalAlmacenCreate where
  sucursal_id : Nat
deriving DecidableEq, Repr

/-- Schema `SucursalAlmacenResponse` (app/schemas/sucursal_almacen.py). -/
structure SucursalAlmacenResponse where
  sucursales_id_sucursal : Nat
  almacenes_id_almacen : Nat
deriving DecidableEq, Repr

/-- Rewrite the first element satisfying `p` by `f` (models in-place
mutation of the ORM object returned by `scalar_one_or_none`). -/
def updateFirst (p : α → Bool) (f : α → α) : List α → List α
  | [] => []
  | x :: xs => if p x then f x :: xs else x :: updateFirst p f xs

/-- Remove the first element satisfying `p` (models `db.delete` of the
fetched row). -/
def eraseFirst (p : α → Bool) : List α → List α
  | [] => []
  | x :: xs => if p x then xs else x :: eraseFirst p xs

/-! ## Branch (sucursales) handlers -/

/-- Handler for `POST /sucursales` (create_sucursal, sucursales.py).  Note the handler
reads `nombre`, `direccion`, `telefono`, `estado` from the payload and the
company id from the caller; it never reads `almacen_id`. -/
def create_sucursal (cu : Nat) (c : SucursalCreate) (db : DB) :
    Except Err Sucursal × DB :=
  let s : Sucursal :=
    { id_sucursal := db.nextSucursalId
      nombre := c.nombre
      direccion := c.direccion
      telefono := c.telefono
      estado := c.estado.getD true
      fecha_creacion := db.now
      empresas_id_empresa := cu }
  (.ok s,
   { db with
      sucursales := db.sucursales ++ [s]
      nextSucursalId := db.nextSucursalId + 1 })

/-- Handler for `GET /sucursales` (list_sucursales): all branches of the caller's
company. -/
def list_sucursales (cu : Nat) (db : DB) : Except Err (List Sucursal) × DB :=
  (.ok (db.sucursales.filter (fun s => s.empresas_id_empresa == cu)), db)

/-- Handler for `GET /sucursales/{id}` (get_sucursal): tenant-scoped lookup, 404 when
absent or foreign. -/
def get_sucursal (cu : Nat) (sucursal_id : Nat) (db : DB) :
    Except Err Sucursal × DB :=
  match db.sucursales.find?
      (fun s => s.id_sucursal == sucursal_id && s.empresas_id_empresa == cu) with
  | none => (.error (.notFound "Branch not found"), db)
  | some s => (.ok s, db)

/-- Field application of `PATCH /sucursales/{id}`: `setattr` for each field
present in `model_dump(exclude_unset=True)`. -/
def applySucursalUpdate (u : SucursalUpdate) (s : Sucursal) : Sucursal :=
  { s with
      nombre := u.nombre.getD s.nombre
      direccion := u.direccion.getD s.direccion
      telefono := u.telefono.getD s.telefono
      estado := u.estado.getD s.estado }

/-- Handler for `PATCH /sucursales/{id}` (update_sucursal). -/
def update_sucursal (cu : Nat) (sucursal_id : Nat) (u : SucursalUpdate)
    (db : DB) : Except Err Sucursal × DB :=
  match db.sucursales.find?
      (fun s => s.id_sucursal == sucursal_id && s.empresas_id_empresa == cu) with
  | none => (.error (.notFound "Branch not found"), db)
  | some s =>
      (.ok (applySucursalUpdate u s),
       { db with
          sucursales :=
            updateFirst
              (fun s => s.id_sucursal == sucursal_id && s.empresas_id_empresa == cu)
              (applySucursalUpdate u) db.sucursales })

/-- Handler for `DELETE /sucursales/{id}` (delete_sucursal): logical delete,
`estado = False` on the fetched row; the lookup does not filter on
`estado`. -/
def delete_sucursal (cu : Nat) (sucursal_id : Nat) (db : DB) :
    Except Err Unit × DB :=
  match db.sucursales.find?
      (fun s => s.id_sucursal == sucursal_id && s.empresas_id_empresa == cu) with
  | none => (.error (.notFound "Branch not found"), db)
  | some _ =>
      (.ok (),
       { db with
          sucursales :=
            updateFirst
              (fun s => s.id_sucursal == sucursal_id && s.empresas_id_empresa == cu)
              (fun s => { s with estado := false }) db.sucursales })

/-- Handler for `GET /sucursales/{id}/almacenes` (list_almacenes_de_sucursal): verifies
the branch belongs to the caller's company, then joins
`sucursales_almacenes` with `almacenes`, filtering the warehouse side by
the caller's company, ordered by `id_almacen`. -/
def list_almacenes_de_sucursal (cu : Nat) (sucursal_id : Nat) (db : DB) :
    Except Err (List Almacen) × DB :=
  match db.sucursales.find?
      (fun s => s.id_sucursal == sucursal_id && s.empresas_id_empresa == cu) with
  | none => (.error (.notFound "Branch not found in your company"), db)
  | some _ =>
      (.ok
        (List.insertionSort (fun a b => a.id_almacen ≤ b.id_almacen)
          ((db.sucursales_almacenes.filter
              (fun l => l.sucursales_id_sucursal == sucursal_id)).flatMap
            (fun l => db.almacenes.filter
              (fun a => a.id_almacen == l.almacenes_id_almacen &&
                        a.empresas_id_empresa == cu)))),
       db)

/-- Handler for `GET /sucursales/{id}/usuarios` (list_usuarios_de_sucursal): join of
`usuarios_sucursales` with `usuarios`, user side filtered by company. -/
def list_usuarios_de_sucursal (cu : Nat) (sucursal_id : Nat) (db : DB) :
    Except Err (List Usuario) × DB :=
  match db.sucursales.find?
      (fun s => s.id_sucursal == sucursal_id && s.empresas_id_empresa == cu) with
  | none => (.error (.notFound "Branch not found in your company"), db)
  | some _ =>
      (.ok
        (List.insertionSort (fun a b => a.id_usuario ≤ b.id_usuario)
          ((db.usuarios_sucursales.filter
              (fun l => l.sucursales_id_sucursal == sucursal_id)).flatMap
            (fun l => db.usuarios.filter
              (fun u => u.id_usuario == l.usuarios_id_usuario &&
                        u.empresas_id_empresa == cu)))),
       db)

/-- First definition of `POST /sucursales/{id}/usuarios`
(assign_usuario_to_sucursal, sucursales.py lines 162-228).  Body carries
only `usuario_id`; the assignment is keyed to the path's branch id.  Since
this route is registered before the duplicate registration further down in
the file, Starlette's in-order route matching makes THIS handler the one
that serves the path. -/
def assign_usuario_to_sucursal_v1 (cu : Nat) (sucursal_id : Nat)
    (payload : UsuarioSucursalCreate) (db : DB) :
    Except Err UsuarioSucursalResponse × DB :=
  match db.sucursales.find?
      (fun s => s.id_sucursal == sucursal_id && s.empresas_id_empresa == cu) with
  | none =>
      (.error (.badRequest "Sucursal does not belong to your company or does not exist"), db)
  | some _ =>
      match db.usuarios.find?
          (fun u => u.id_usuario == payload.usuario_id &&
                    u.empresas_id_empresa == cu) with
      | none =>
          (.error (.badRequest "User does not belong to your company or does not exist"), db)
      | some _ =>
          (.ok { usuarios_id_usuario := payload.usuario_id
                 sucursales_id_sucursal := sucursal_id },
           { db with
              usuarios_sucursales :=
                db.usuarios_sucursales ++
                  [{ usuarios_id_usuario := payload.usuario_id
                     sucursales_id_sucursal := sucursal_id }] })

/-- Second definition of `POST /sucursales/{id}/usuarios`
(sucursales.py lines 366-435), modelled with the body shape its code
reads.  It first requires the body's `sucursales_id_sucursal` to match the
path parameter (400 otherwise).  This registration is shadowed by the
first one and never serves a request. -/
def assign_usuario_to_sucursal_v2 (cu : Nat) (sucursal_id : Nat)
    (payload : UsuarioSucursalBodyV2) (db : DB) :
    Except Err UsuarioSucursalResponse × DB :=
  if payload.sucursales_id_sucursal ≠ sucursal_id then
    (.error (.badRequest "sucursales_id_sucursal must match path parameter"), db)
  else
    match db.sucursales.find?
        (fun s => s.id_sucursal == sucursal_id && s.empresas_id_empresa == cu) with
    | none =>
        (.error (.badRequest "Sucursal does not belong to your company or does not exist"), db)
    | some _ =>
        match db.usuarios.find?
            (fun u => u.id_usuario == payload.usuarios_id_usuario &&
                      u.empresas_id_empresa == cu) with
        | none =>
            (.error (.badRequest "User does not belong to your company or does not exist"), db)
        | some _ =>
            (.ok { usuarios_id_usuario := payload.usuarios_id_usuario
                   sucursales_id_sucursal := sucursal_id },
             { db with
                usuarios_sucursales :=
                  db.usuarios_sucursales ++
                    [{ usuarios_id_usuario := payload.usuarios_id_usuario
                       sucursales_id_sucursal := sucursal_id }] })

/-- Handler for `DELETE /sucursales/{id}/usuarios/{usuario_id}`
(remove_usuario_from_sucursal). -/
def remove_usuario_from_sucursal (cu : Nat) (sucursal_id : Nat)
    (usuario_id : Nat) (db : DB) : Except Err Unit × DB :=
  match db.sucursales.find?
      (fun s => s.id_sucursal == sucursal_id && s.empresas_id_empresa == cu) with
  | none => (.error (.notFound "Branch not found in your company"), db)
  | some _ =>
      match db.usuarios_sucursales.find?
          (fun a => a.usuarios_id_usuario == usuario_id &&
                    a.sucursales_id_sucursal == sucursal_id) with
      | none => (.error (.notFound "Assignment not found"), db)
      | some _ =>
          (.ok (),
           { db with
              usuarios_sucursales :=
                eraseFirst
                  (fun a => a.usuarios_id_usuario == usuario_id &&
                            a.sucursales_id_sucursal == sucursal_id)
                  db.usuarios_sucursales })

/-! ## Warehouse (almacenes) handlers -/

/-- Handler for `GET /almacenes` (list_almacenes): all warehouses of the caller's
company. -/
def list_almacenes (cu : Nat) (db : DB) : Except Err (List Almacen) × DB :=
  (.ok (db.almacenes.filter (fun a => a.empresas_id_empresa == cu)), db)

/-- Handler for `GET /almacenes/{id}` (get_almacen). -/
def get_almacen (cu : Nat) (almacen_id : Nat) (db : DB) :
    Except Err Almacen × DB :=
  match db.almacenes.find?
      (fun a => a.id_almacen == almacen_id && a.empresas_id_empresa == cu) with
  | none => (.error (.notFound "Warehouse not found"), db)
  | some a => (.ok a, db)

/-- Handler for `POST /almacenes` (create_almacen): validates that `sucursal_id`
references a branch of the caller's company (400 otherwise, before any
write), then inserts the warehouse row and the `sucursales_almacenes` link
row in the same unit of work. -/
def create_almacen (cu : Nat) (c : AlmacenCreate) (db : DB) :
    Except Err Almacen × DB :=
  match db.sucursales.find?
      (fun s => s.id_sucursal == c.sucursal_id && s.empresas_id_empresa == cu) with
  | none =>
      (.error (.badRequest "Sucursal does not belong to your company or does not exist"), db)
  | some _ =>
      let a : Almacen :=
        { id_almacen := db.nextAlmacenId
          nombre := c.nombre
          descripcion := c.descripcion
          es_principal := c.es_principal
          estado := c.estado.getD true
          fecha_creacion := db.now
          empresas_id_empresa := cu }
      (.ok a,
       { db with
          almacenes := db.almacenes ++ [a]
          nextAlmacenId := db.nextAlmacenId + 1
          sucursales_almacenes :=
            db.sucursales_almacenes ++
              [{ sucursales_id_sucursal := c.sucursal_id
                 almacenes_id_almacen := a.id_almacen }] })

/-- Field application of `PATCH /almacenes/{id}`. -/
def applyAlmacenUpdate (u : AlmacenUpdate) (a : Almacen) : Almacen :=
  { a with
      nombre := u.nombre.getD a.nombre
      descripcion := u.descripcion.getD a.descripcion
      es_principal := u.es_principal.getD a.es_principal
      estado := u.estado.getD a.estado }

/-- Handler for `PATCH /almacenes/{id}` (update_almacen). -/
def update_almacen (cu : Nat) (almacen_id : Nat) (u : AlmacenUpdate)
    (db : DB) : Except Err Almacen × DB :=
  match db.almacenes.find?
      (fun a => a.id_almacen == almacen_id && a.empresas_id_empresa == cu) with
  | none => (.error (.notFound "Warehouse not found"), db)
  | some a =>
      (.ok (applyAlmacenUpdate u a),
       { db with
          almacenes :=
            updateFirst
              (fun a => a.id_almacen == almacen_id && a.empresas_id_empresa == cu)
              (applyAlmacenUpdate u) db.almacenes })

/-- Handler for `DELETE /almacenes/{id}` (delete_almacen): logical delete. -/
def delete_almacen (cu : Nat) (almacen_id : Nat) (db : DB) :
    Except Err Unit × DB :=
  match db.almacenes.find?
      (fun a => a.id_almacen == almacen_id && a.empresas_id_empresa == cu) with
  | none => (.error (.notFound "Warehouse not found"), db)
  | some _ =>
      (.ok (),
       { db with
          almacenes :=
            updateFirst
              (fun a => a.id_almacen == almacen_id && a.empresas_id_empresa == cu)
              (fun a => { a with estado := false }) db.almacenes })

/-- Handler for `GET /almacenes/{id}/sucursales` (list_sucursales_de_almacen): join of
`sucursales_almacenes` with `sucursales`, branch side filtered by the
caller's company, ordered by `id_sucursal`. -/
def list_sucursales_de_almacen (cu : Nat) (almacen_id : Nat) (db : DB) :
    Except Err (List Sucursal) × DB :=
  match db.almacenes.find?
      (fun a => a.id_almacen == almacen_id && a.empresas_id_empresa == cu) with
  | none => (.error (.notFound "Warehouse not found in your company"), db)
  | some _ =>
      (.ok
        (List.insertionSort (fun a b => a.id_sucursal ≤ b.id_sucursal)
          ((db.sucursales_almacenes.filter
              (fun l => l.almacenes_id_almacen == almacen_id)).flatMap
            (fun l => db.sucursales.filter
              (fun s => s.id_sucursal == l.sucursales_id_sucursal &&
                        s.empresas_id_empresa == cu)))),
       db)

/-- Handler for `POST /almacenes/{id}/sucursales` (link_sucursal_to_almacen): both the
path's warehouse and the body's branch must belong to the caller's company
(400 otherwise), then the link row is inserted. -/
def link_sucursal_to_almacen (cu : Nat) (almacen_id : Nat)
    (payload : SucursalAlmacenCreate) (db : DB) :
    Except Err SucursalAlmacenResponse × DB :=
  match db.almacenes.find?
      (fun a => a.id_almacen == almacen_id && a.empresas_id_empresa == cu) with
  | none =>
      (.error (.badRequest "Almacen does not belong to your company or does not exist"), db)
  | some _ =>
      match db.sucursales.find?
          (fun s => s.id_sucursal == payload.sucursal_id && s.empresas_id_empresa == cu) with
      | none =>
          (.error (.badRequest "Sucursal does not belong to your company or does not exist"), db)
      | some _ =>
          (.ok { sucursales_id_sucursal := payload.sucursal_id
                 almacenes_id_almacen := almacen_id },
           { db with
              sucursales_almacenes :=
                db.sucursales_almacenes ++
                  [{ sucursales_id_sucursal := payload.sucursal_id
                     almacenes_id_almacen := almacen_id }] })

/-- Handler for `DELETE /almacenes/{id}/sucursales/{sucursal_id}`
(unlink_sucursal_from_almacen). -/
def unlink_sucursal_from_almacen (cu : Nat) (almacen_id : Nat)
    (sucursal_id : Nat) (db : DB) : Except Err Unit × DB :=
  match db.almacenes.find?
      (fun a => a.id_almacen == almacen_id && a.empresas_id_empresa == cu) with
  | none => (.error (.notFound "Warehouse not found in your company"), db)
  | some _ =>
      match db.sucursales_almacenes.find?
          (fun l => l.almacenes_id_almacen == almacen_id &&
                    l.sucursales_id_sucursal == sucursal_id) with
      | none => (.error (.notFound "Link not found"), db)
      | some _ =>
          (.ok (),
           { db with
              sucursales_almacenes :=
                eraseFirst
                  (fun l => l.almacenes_id_almacen == almacen_id &&
                            l.sucursales_id_sucursal == sucursal_id)
                  db.sucursales_almacenes })

/-! ## The exposed operations, as one step relation -/

/-- One exposed API operation with its caller (identified by company id)
and payload. -/
inductive Op where
  | createSucursalOp (cu : Nat) (c : SucursalCreate)
  | listSucursalesOp (cu : Nat)
  | getSucursalOp (cu sucursal_id : Nat)
  | updateSucursalOp (cu sucursal_id : Nat) (u : SucursalUpdate)
  | deleteSucursalOp (cu sucursal_id : Nat)
  | listAlmacenesDeSucursalOp (cu sucursal_id : Nat)
  | listUsuariosDeSucursalOp (cu sucursal_id : Nat)
  | assignUsuarioV1Op (cu sucursal_id : Nat) (p : UsuarioSucursalCreate)
  | assignUsuarioV2Op (cu sucursal_id : Nat) (p : UsuarioSucursalBodyV2)
  | removeUsuarioOp (cu sucursal_id usuario_id : Nat)
  | listAlmacenesOp (cu : Nat)
  | getAlmacenOp (cu almacen_id : Nat)
  | createAlmacenOp (cu : Nat) (c : AlmacenCreate)
  | updateAlmacenOp (cu almacen_id : Nat) (u : AlmacenUpdate)
  | deleteAlmacenOp (cu almacen_id : Nat)
  | listSucursalesDeAlmacenOp (cu almacen_id : Nat)
  | linkSucursalToAlmacenOp (cu almacen_id : Nat) (p : SucursalAlmacenCreate)
  | unlinkSucursalFromAlmacenOp (cu almacen_id sucursal_id : Nat)
deriving DecidableEq, Repr

/-- Post-state of one exposed operation (the state component of the
corresponding handler; on an error response the state is the one at the
raise point). -/
def applyOp (op : Op) (db : DB) : DB :=
  match op with
  | .createSucursalOp cu c => (create_sucursal cu c db).2
  | .listSucursalesOp cu => (list_sucursales cu db).2
  | .getSucursalOp cu sid => (get_sucursal cu sid db).2
  | .updateSucursalOp cu sid u => (update_sucursal cu sid u db).2
  | .deleteSucursalOp cu sid => (delete_sucursal cu sid db).2
  | .listAlmacenesDeSucursalOp cu sid => (list_almacenes_de_sucursal cu sid db).2
  | .listUsuariosDeSucursalOp cu sid => (list_usuarios_de_sucursal cu sid db).2
  | .assignUsuarioV1Op cu sid p => (assign_usuario_to_sucursal_v1 cu sid p db).2
  | .assignUsuarioV2Op cu sid p => (assign_usuario_to_sucursal_v2 cu sid p db).2
  | .removeUsuarioOp cu sid uid => (remove_usuario_from_sucursal cu sid uid db).2
  | .listAlmacenesOp cu => (list_almacenes cu db).2
  | .getAlmacenOp cu aid => (get_almacen cu aid db).2
  | .createAlmacenOp cu c => (create_almacen cu c db).2
  | .updateAlmacenOp cu aid u => (update_almacen cu aid u db).2
  | .deleteAlmacenOp cu aid => (delete_almacen cu aid db).2
  | .listSucursalesDeAlmacenOp cu aid => (list_sucursales_de_almacen cu aid db).2
  | .linkSucursalToAlmacenOp cu aid p => (link_sucursal_to_almacen cu aid p db).2
  | .unlinkSucursalFromAlmacenOp cu aid sid => (unlink_sucursal_from_almacen cu aid sid db).2

/-- Whether the operation is a partial update whose body supplies the
`estado` field. -/
def Op.suppliesEstado : Op → Bool
  | .updateSucursalOp _ _ u => u.estado.isSome
  | .updateAlmacenOp _ _ u => u.estado.isSome
  | _ => false

/-! ## Helper lemmas about the list primitives -/

theorem length_updateFirst (p : α → Bool) (f : α → α) (l : List α) :
    (updateFirst p f l).length = l.length := by
  induction l with
  | nil => rfl
  | cons x xs ih =>
      by_cases h : p x <;> simp [updateFirst, h, ih]

theorem updateFirst_of_find?_eq_none (p : α → Bool) (f : α → α) (l : List α)
    (h : l.find? p = none) : updateFirst p f l = l := by
  induction l with
  | nil => rfl
  | cons x xs ih =>
      cases hp : p x with
      | true => simp [List.find?_cons, hp] at h
      | false =>
          simp only [List.find?_cons, hp] at h
          simp [updateFirst, hp, ih h]

theorem find?_updateFirst_some (p : α → Bool) (f : α → α) (l : List α) (a : α)
    (hpf : ∀ x, p x = true → p (f x) = true) (h : l.find? p = some a) :
    (updateFirst p f l).find? p = some (f a) := by
  induction l with
  | nil => simp at h
  | cons x xs ih =>
      cases hp : p x with
      | true =>
          simp only [List.find?_cons, hp, Option.some.injEq] at h
          subst h
          simp [updateFirst, hp, List.find?_cons, hpf x hp]
      | false =>
          simp only [List.find?_cons, hp] at h
          simp [updateFirst, hp, List.find?_cons, ih h]

theorem updateFirst_updateFirst (p : α → Bool) (f : α → α) (l : List α)
    (hpf : ∀ x, p x = true → p (f x) = true)
    (hff : ∀ x, p x = true → f (f x) = f x) :
    updateFirst p f (updateFirst p f l) = updateFirst p f l := by
  induction l with
  | nil => rfl
  | cons x xs ih =>
      cases hp : p x with
      | true => simp [updateFirst, hp, hpf x hp, hff x hp]
      | false => simp [updateFirst, hp, ih]

theorem updateFirst_eq_set (p : α → Bool) (f : α → α) (l : List α) (a : α)
    (h : l.find? p = some a) :
    ∃ j, ∃ hj : j < l.length,
      l.get ⟨j, hj⟩ = a ∧ updateFirst p f l = l.set j (f a) := by
  induction l with
  | nil => simp at h
  | cons x xs ih =>
      cases hp : p x with
      | true =>
          simp only [List.find?_cons, hp, Option.some.injEq] at h
          subst h
          exact ⟨0, by simp, rfl, by simp [updateFirst, hp]⟩
      | false =>
          simp only [List.find?_cons, hp] at h
          obtain ⟨j, hj, hget, heq⟩ := ih h
          refine ⟨j + 1, by simpa using Nat.succ_lt_succ hj, by simpa using hget, ?_⟩
          simp [updateFirst, hp, heq]

theorem get_updateFirst (p : α → Bool) (f : α → α) (l : List α) (i : Nat)
    (h1 : i < l.length) (h2 : i < (updateFirst p f l).length) :
    (updateFirst p f l).get ⟨i, h2⟩ = l.get ⟨i, h1⟩ ∨
    (updateFirst p f l).get ⟨i, h2⟩ = f (l.get ⟨i, h1⟩) := by
  induction l generalizing i with
  | nil => simp at h1
  | cons x xs ih =>
      cases hp : p x with
      | true =>
          cases i with
          | zero => right; simp [updateFirst, hp] at h2 ⊢
          | succ n => left; simp [updateFirst, hp] at h2 ⊢
      | false =>
          cases i with
          | zero => left; simp [updateFirst, hp] at h2 ⊢
          | succ n =>
              have h2' : n < (updateFirst p f xs).length := by
                simpa [updateFirst, hp] using h2
              have := ih n (by simpa using h1) h2'
              simpa [updateFirst, hp] using this

theorem exists_mem_updateFirst {P : α → Prop} (p : α → Bool) (f : α → α)
    (l : List α) (hPf : ∀ x, P x → P (f x)) (h : ∃ x ∈ l, P x) :
    ∃ x ∈ updateFirst p f l, P x := by
  induction l with
  | nil => simp at h
  | cons y ys ih =>
      obtain ⟨x, hx, hPx⟩ := h
      cases hp : p y with
      | true =>
          rcases List.mem_cons.mp hx with rfl | hx
          · exact ⟨f x, by simp [updateFirst, hp], hPf x hPx⟩
          · exact ⟨x, by simp [updateFirst, hp, hx], hPx⟩
      | false =>
          rcases List.mem_cons.mp hx with rfl | hx
          · exact ⟨x, by simp [updateFirst, hp], hPx⟩
          · obtain ⟨z, hz, hPz⟩ := ih ⟨x, hx, hPx⟩
            exact ⟨z, by simp [updateFirst, hp]; exact Or.inr hz, hPz⟩

theorem mem_of_mem_eraseFirst (p : α → Bool) (l : List α) (x : α)
    (h : x ∈ eraseFirst p l) : x ∈ l := by
  induction l with
  | nil => simp [eraseFirst] at h
  | cons y ys ih =>
      cases hp : p y with
      | true =>
          simp only [eraseFirst, hp, if_pos] at h
          exact List.mem_cons_of_mem y h
      | false =>
          simp only [eraseFirst, hp, Bool.false_eq_true, if_neg, not_false_iff] at h
          rcases List.mem_cons.mp h with rfl | h
          · exact List.mem_cons_self x ys
          · exact List.mem_cons_of_mem y (ih h)

theorem get_append_left_eq (l l' : List α) (i : Nat) (h1 : i < l.length)
    (h2 : i < (l ++ l').length) :
    (l ++ l').get ⟨i, h2⟩ = l.get ⟨i, h1⟩ := by
  simp [List.getElem_append_left h1]

/-! ## Example states (used by witnesses and counterexamples) -/

/-- A two-company state: branch 1 and warehouse 1 belong to company 1,
branch 2 belongs to company 2, user 5 belongs to company 1, and branch 1 is
linked to warehouse 1. -/
def dbW : DB :=
  { sucursales :=
      [{ id_sucursal := 1, nombre := "Centro", direccion := "Av. Uno 100",
         telefono := none, estado := true, fecha_creacion := 10,
         empresas_id_empresa := 1 },
       { id_sucursal := 2, nombre := "Norte", direccion := "Av. Dos 200",
         telefono := some "5550002", estado := true, fecha_creacion := 11,
         empresas_id_empresa := 2 }]
    almacenes :=
      [{ id_almacen := 1, nombre := "Central", descripcion := none,
         es_principal := true, estado := true, fecha_creacion := 10,
         empresas_id_empresa := 1 }]
    sucursales_almacenes :=
      [{ sucursales_id_sucursal := 1, almacenes_id_almacen := 1 }]
    usuarios_sucursales := []
    usuarios := [{ id_usuario := 5, empresas_id_empresa := 1 }]
    nextSucursalId := 3
    nextAlmacenId := 2
    now := 20 }

/-- A one-company state whose single branch is already inactive. -/
def dbInactive : DB :=
  { sucursales :=
      [{ id_sucursal := 1, nombre := "Centro", direccion := "Av. Uno 100",
         telefono := none, estado := false, fecha_creacion := 5,
         empresas_id_empresa := 1 }]
    almacenes := []
    sucursales_almacenes := []
    usuarios_sucursales := []
    usuarios := []
    nextSucursalId := 2
    nextAlmacenId := 1
    now := 9 }

/-! ## Claim C1 -/

/-- C1: tenant isolation of listings.  For every caller and every datastore
state, the branch and warehouse collection listings, and the join-based
listings of warehouses-per-branch and branches-per-warehouse, return only
rows whose owning company id equals the caller's company id. -/
theorem c1_tenant_isolation_of_listings (cu : Nat) (db : DB) :
    (∀ rows, (list_sucursales cu db).1 = .ok rows →
       ∀ s ∈ rows, s.empresas_id_empresa = cu) ∧
    (∀ rows, (list_almacenes cu db).1 = .ok rows →
       ∀ a ∈ rows, a.empresas_id_empresa = cu) ∧
    (∀ sucursal_id rows,
       (list_almacenes_de_sucursal cu sucursal_id db).1 = .ok rows →
       ∀ a ∈ rows, a.empresas_id_empresa = cu) ∧
    (∀ almacen_id rows,
       (list_sucursales_de_almacen cu almacen_id db).1 = .ok rows →
       ∀ s ∈ rows, s.empresas_id_empresa = cu) := by
  refine ⟨?_, ?_, ?_, ?_⟩
  · intro rows hrows s hs
    simp only [list_sucursales, Except.ok.injEq] at hrows
    subst hrows
    simpa [beq_iff_eq] using (List.mem_filter.mp hs).2
  · intro rows hrows a ha
    simp only [list_almacenes, Except.ok.injEq] at hrows
    subst hrows
    simpa [beq_iff_eq] using (List.mem_filter.mp ha).2
  · intro sid rows hrows a ha
    unfold list_almacenes_de_sucursal at hrows
    split at hrows
    · simp at hrows
    · simp only [Except.ok.injEq] at hrows
      subst hrows
      rw [List.mem_insertionSort] at ha
      obtain ⟨l, _, hal⟩ := List.mem_flatMap.mp ha
      have := (List.mem_filter.mp hal).2
      simp only [Bool.and_eq_true, beq_iff_eq] at this
      exact this.2
  · intro aid rows hrows s hs
    unfold list_sucursales_de_almacen at hrows
    split at hrows
    · simp at hrows
    · simp only [Except.ok.injEq] at hrows
      subst hrows
      rw [List.mem_insertionSort] at hs
      obtain ⟨l, _, hsl⟩ := List.mem_flatMap.mp hs
      have := (List.mem_filter.mp hsl).2
      simp only [Bool.and_eq_true, beq_iff_eq] at this
      exact this.2

/-- Witness for C1: a concrete listing result row of company 1 in `dbW`. -/
theorem c1_witness :
    ({ id_sucursal := 1, nombre := "Centro", direccion := "Av. Uno 100",
       telefono := none, estado := true, fecha_creacion := 10,
       empresas_id_empresa := 1 : Sucursal }).empresas_id_empresa = 1 :=
  (c1_tenant_isolation_of_listings 1 dbW).1
    [{ id_sucursal := 1, nombre := "Centro", direccion := "Av. Uno 100",
       telefono := none, estado := true, fecha_creacion := 10,
       empresas_id_empresa := 1 }]
    (by rfl) _ (by simp)

/-! ## Claim C2 -/

/-- C2: create-warehouse failure atomicity.  If `create_almacen` is called
with a `sucursal_id` that does not reference a branch owned by the caller's
company (missing or foreign), the handler returns the 400-equivalent error
and the datastore state is unchanged: no warehouse row and no
branch-warehouse link row persists. -/
theorem c2_create_almacen_failure_atomicity (cu : Nat) (c : AlmacenCreate)
    (db : DB)
    (h : ∀ s ∈ db.sucursales,
      ¬(s.id_sucursal = c.sucursal_id ∧ s.empresas_id_empresa = cu)) :
    create_almacen cu c db =
      (.error (.badRequest "Sucursal does not belong to your company or does not exist"),
       db) := by
  have hf : db.sucursales.find?
      (fun s => s.id_sucursal == c.sucursal_id && s.empresas_id_empresa == cu) = none := by
    rw [List.find?_eq_none]
    intro x hx hpx
    simp only [Bool.and_eq_true, beq_iff_eq] at hpx
    exact h x hx hpx
  unfold create_almacen
  rw [hf]

/-- Witness for C2: company 1 creating a warehouse against the nonexistent
branch 99 of `dbW` fails with 400 and leaves the state unchanged. -/
theorem c2_witness :
    create_almacen 1
      { nombre := "Nuevo", descripcion := none, es_principal := false,
        estado := none, sucursal_id := 99 } dbW =
      (.error (.badRequest "Sucursal does not belong to your company or does not exist"),
       dbW) :=
  c2_create_almacen_failure_atomicity 1
    { nombre := "Nuevo", descripcion := none, es_principal := false,
      estado := none, sucursal_id := 99 } dbW (by decide)

/-! ## Claim C3 -/

/-- C3: create-branch ignores `almacen_id`.  For every create-branch
request exactly one branch row is appended, no branch-warehouse link row is
created or modified, and the persisted branch, response and entire
post-state are identical whatever `almacen_id` carries. -/
theorem c3_create_sucursal_ignores_almacen_id (cu : Nat) (c : SucursalCreate)
    (db : DB) :
    (∃ s, (create_sucursal cu c db).1 = .ok s ∧
       (create_sucursal cu c db).2 =
         { db with
            sucursales := db.sucursales ++ [s]
            nextSucursalId := db.nextSucursalId + 1 }) ∧
    (create_sucursal cu c db).2.sucursales_almacenes = db.sucursales_almacenes ∧
    (create_sucursal cu c db).2.almacenes = db.almacenes ∧
    (create_sucursal cu c db).2.usuarios_sucursales = db.usuarios_sucursales ∧
    (∀ x, create_sucursal cu { c with almacen_id := x } db =
       create_sucursal cu c db) :=
  ⟨⟨_, rfl, rfl⟩, rfl, rfl, rfl, fun _ => rfl⟩

/-! ## Claim C6 -/

/-- Counterexample for C6: deleting branch 1 of `dbW` twice, the second
call still returns 204 (`ok ()`), not a 404: the estado-agnostic lookup
finds the soft-deleted row again. -/
theorem c6_counterexample :
    (delete_sucursal 1 1 dbW).1 = .ok () ∧
    (delete_sucursal 1 1 (delete_sucursal 1 1 dbW).2).1 = .ok () := by
  constructor <;> rfl

/-- C6 (amended): delete is idempotent in observable outcome.  If a delete
of a branch (or warehouse) succeeds, repeating it on the resulting state
succeeds again with 204 and leaves the state exactly as after the first
call, because the lookup ignores the `estado` flag. -/
theorem c6_amended_second_delete_succeeds :
    (∀ cu sucursal_id db, (delete_sucursal cu sucursal_id db).1 = .ok () →
       delete_sucursal cu sucursal_id (delete_sucursal cu sucursal_id db).2 =
         (.ok (), (delete_sucursal cu sucursal_id db).2)) ∧
    (∀ cu almacen_id db, (delete_almacen cu almacen_id db).1 = .ok () →
       delete_almacen cu almacen_id (delete_almacen cu almacen_id db).2 =
         (.ok (), (delete_almacen cu almacen_id db).2)) := by
  constructor
  · intro cu sid db h
    cases heq : db.sucursales.find?
        (fun s => s.id_sucursal == sid && s.empresas_id_empresa == cu) with
    | none =>
        unfold delete_sucursal at h
        rw [heq] at h
        simp at h
    | some s =>
        have heq2 := find?_updateFirst_some
          (fun s => s.id_sucursal == sid && s.empresas_id_empresa == cu)
          (fun s => { s with estado := false }) db.sucursales s
          (fun _ hx => hx) heq
        simp only [delete_sucursal, heq, heq2]
        rw [updateFirst_updateFirst
          (fun s => s.id_sucursal == sid && s.empresas_id_empresa == cu)
          (fun s => { s with estado := false }) db.sucursales
          (fun _ hx => hx) (fun _ _ => rfl)]
  · intro cu aid db h
    cases heq : db.almacenes.find?
        (fun a => a.id_almacen == aid && a.empresas_id_empresa == cu) with
    | none =>
        unfold delete_almacen at h
        rw [heq] at h
        simp at h
    | some a =>
        have heq2 := find?_updateFirst_some
          (fun a => a.id_almacen == aid && a.empresas_id_empresa == cu)
          (fun a => { a with estado := false }) db.almacenes a
          (fun _ hx => hx) heq
        simp only [delete_almacen, heq, heq2]
        rw [updateFirst_updateFirst
          (fun a => a.id_almacen == aid && a.empresas_id_empresa == cu)
          (fun a => { a with estado := false }) db.almacenes
          (fun _ hx => hx) (fun _ _ => rfl)]

/-- Witness for C6 (amended): both halves at concrete inputs on `dbW`. -/
theorem c6_amended_witness :
    delete_sucursal 1 1 (delete_sucursal 1 1 dbW).2 =
      (.ok (), (delete_sucursal 1 1 dbW).2) ∧
    delete_almacen 1 1 (delete_almacen 1 1 dbW).2 =
      (.ok (), (delete_almacen 1 1 dbW).2) :=
  ⟨c6_amended_second_delete_succeeds.1 1 1 dbW (by rfl),
   c6_amended_second_delete_succeeds.2 1 1 dbW (by rfl)⟩

/-! ## Claim C7 -/

/-- C7: soft-deleted rows stay retrievable.  After a successful delete of a
branch (or warehouse), a get for the same id by a caller of the same
company still succeeds, returning a row with that id, that company and
`estado = false`: the logical delete never removes the row from lookups. -/
theorem c7_soft_deleted_rows_stay_retrievable :
    (∀ cu sucursal_id db r, (delete_sucursal cu sucursal_id db).1 = .ok () →
       db.sucursales.find?
         (fun s => s.id_sucursal == sucursal_id && s.empresas_id_empresa == cu) = some r →
       (get_sucursal cu sucursal_id (delete_sucursal cu sucursal_id db).2).1 =
         .ok { r with estado := false }) ∧
    (∀ cu almacen_id db r, (delete_almacen cu almacen_id db).1 = .ok () →
       db.almacenes.find?
         (fun a => a.id_almacen == almacen_id && a.empresas_id_empresa == cu) = some r →
       (get_almacen cu almacen_id (delete_almacen cu almacen_id db).2).1 =
         .ok { r with estado := false }) := by
  constructor
  · intro cu sid db r _ heq
    have heq2 := find?_updateFirst_some
      (fun s => s.id_sucursal == sid && s.empresas_id_empresa == cu)
      (fun s => { s with estado := false }) db.sucursales r
      (fun _ hx => hx) heq
    simp only [delete_sucursal, get_sucursal, heq, heq2]
  · intro cu aid db r _ heq
    have heq2 := find?_updateFirst_some
      (fun a => a.id_almacen == aid && a.empresas_id_empresa == cu)
      (fun a => { a with estado := false }) db.almacenes r
      (fun _ hx => hx) heq
    simp only [delete_almacen, get_almacen, heq, heq2]

/-- Witness for C7: both halves at concrete inputs on `dbW`. -/
theorem c7_witness :
    (get_sucursal 1 1 (delete_sucursal 1 1 dbW).2).1 =
      .ok { id_sucursal := 1, nombre := "Centro", direccion := "Av. Uno 100",
            telefono := none, estado := false, fecha_creacion := 10,
            empresas_id_empresa := 1 } ∧
    (get_almacen 1 1 (delete_almacen 1 1 dbW).2).1 =
      .ok { id_almacen := 1, nombre := "Central", descripcion := none,
            es_principal := true, estado := false, fecha_creacion := 10,
            empresas_id_empresa := 1 } :=
  ⟨c7_soft_deleted_rows_stay_retrievable.1 1 1 dbW
      { id_sucursal := 1, nombre := "Centro", direccion := "Av. Uno 100",
        telefono := none, estado := true, fecha_creacion := 10,
        empresas_id_empresa := 1 } (by rfl) (by rfl),
   c7_soft_deleted_rows_stay_retrievable.2 1 1 dbW
      { id_almacen := 1, nombre := "Central", descripcion := none,
        es_principal := true, estado := true, fecha_creacion := 10,
        empresas_id_empresa := 1 } (by rfl) (by rfl)⟩

/-! ## Claim C5 -/

/-- The raw JSON body a client may send to `POST /sucursales/{id}/usuarios`.
Pydantic's default config ignores undeclared members, so a
`sucursales_id_sucursal` member of the body is discarded when the body is
validated against the declared `UsuarioSucursalCreate` schema. -/
structure RawAssignBody where
  usuario_id : Nat
  sucursales_id_sucursal : Option Nat
deriving DecidableEq, Repr

/-- Pydantic validation of the raw body against `UsuarioSucursalCreate`
(app/schemas/usuario_sucursal.py): only the declared `usuario_id` field is
kept. -/
def parseUsuarioSucursalCreate (raw : RawAssignBody) : UsuarioSucursalCreate :=
  { usuario_id := raw.usuario_id }

/-- The behaviour of `POST /sucursales/{id}/usuarios` as deployed: the path
operation is registered twice in sucursales.py, and Starlette matches
routes in registration order, so the FIRST definition (lines 162-228)
serves every request; the second definition (lines 366-435), the one
containing the path/body consistency check, is unreachable (and reads body
fields the declared schema does not define). -/
def assign_usuario_route (cu : Nat) (sucursal_id : Nat)
    (raw : RawAssignBody) (db : DB) : Except Err UsuarioSucursalResponse × DB :=
  assign_usuario_to_sucursal_v1 cu sucursal_id (parseUsuarioSucursalCreate raw) db

/-- C5 evaluated at the failing input: company-1 caller posts to branch 1
a body whose branch reference is 99 (≠ 1).  The served route succeeds with
201 and creates the assignment row `(5, 1)` — the body's branch reference
is silently discarded, no 400 is raised, contradicting the claim. -/
theorem c5_route_ignores_path_body_mismatch :
    assign_usuario_route 1 1
      { usuario_id := 5, sucursales_id_sucursal := some 99 } dbW =
      (.ok { usuarios_id_usuario := 5, sucursales_id_sucursal := 1 },
       { dbW with
          usuarios_sucursales :=
            [{ usuarios_id_usuario := 5, sucursales_id_sucursal := 1 }] }) := by
  rfl

/-! ## Claim C9 -/

/-- C9: partial-update frame.  For a PATCH that finds its target in the
caller's company, the result state replaces exactly the first matching row
(position `j`) by the field application, all other rows and all other
tables being untouched; the field application changes only supplied fields
and never `id`, `fecha_creacion` or the owning company; when the target is
absent or foreign the handler returns 404 with the state unchanged. -/
theorem c9_partial_update_frame :
    (∀ cu sucursal_id u db,
      (db.sucursales.find?
          (fun s => s.id_sucursal == sucursal_id && s.empresas_id_empresa == cu) = none →
        update_sucursal cu sucursal_id u db =
          (.error (.notFound "Branch not found"), db)) ∧
      (∀ r, db.sucursales.find?
          (fun s => s.id_sucursal == sucursal_id && s.empresas_id_empresa == cu) = some r →
        ∃ j, ∃ hj : j < db.sucursales.length,
          db.sucursales.get ⟨j, hj⟩ = r ∧
          update_sucursal cu sucursal_id u db =
            (.ok (applySucursalUpdate u r),
             { db with
                sucursales := db.sucursales.set j (applySucursalUpdate u r) }))) ∧
    (∀ u r, (applySucursalUpdate u r).id_sucursal = r.id_sucursal ∧
       (applySucursalUpdate u r).fecha_creacion = r.fecha_creacion ∧
       (applySucursalUpdate u r).empresas_id_empresa = r.empresas_id_empresa ∧
       (u.nombre = none → (applySucursalUpdate u r).nombre = r.nombre) ∧
       (u.direccion = none → (applySucursalUpdate u r).direccion = r.direccion) ∧
       (u.telefono = none → (applySucursalUpdate u r).telefono = r.telefono) ∧
       (u.estado = none → (applySucursalUpdate u r).estado = r.estado)) ∧
    (∀ cu almacen_id u db,
      (db.almacenes.find?
          (fun a => a.id_almacen == almacen_id && a.empresas_id_empresa == cu) = none →
        update_almacen cu almacen_id u db =
          (.error (.notFound "Warehouse not found"), db)) ∧
      (∀ r, db.almacenes.find?
          (fun a => a.id_almacen == almacen_id && a.empresas_id_empresa == cu) = some r →
        ∃ j, ∃ hj : j < db.almacenes.length,
          db.almacenes.get ⟨j, hj⟩ = r ∧
          update_almacen cu almacen_id u db =
            (.ok (applyAlmacenUpdate u r),
             { db with
                almacenes := db.almacenes.set j (applyAlmacenUpdate u r) }))) ∧
    (∀ u r, (applyAlmacenUpdate u r).id_almacen = r.id_almacen ∧
       (applyAlmacenUpdate u r).fecha_creacion = r.fecha_creacion ∧
       (applyAlmacenUpdate u r).empresas_id_empresa = r.empresas_id_empresa ∧
       (u.nombre = none → (applyAlmacenUpdate u r).nombre = r.nombre) ∧
       (u.descripcion = none → (applyAlmacenUpdate u r).descripcion = r.descripcion) ∧
       (u.es_principal = none → (applyAlmacenUpdate u r).es_principal = r.es_principal) ∧
       (u.estado = none → (applyAlmacenUpdate u r).estado = r.estado)) := by
  refine ⟨fun cu sid u db => ⟨fun hnone => ?_, fun r heq => ?_⟩,
          fun u r => ⟨rfl, rfl, rfl,
            fun h => by simp [applySucursalUpdate, h],
            fun h => by simp [applySucursalUpdate, h],
            fun h => by simp [applySucursalUpdate, h],
            fun h => by simp [applySucursalUpdate, h]⟩,
          fun cu aid u db => ⟨fun hnone => ?_, fun r heq => ?_⟩,
          fun u r => ⟨rfl, rfl, rfl,
            fun h => by simp [applyAlmacenUpdate, h],
            fun h => by simp [applyAlmacenUpdate, h],
            fun h => by simp [applyAlmacenUpdate, h],
            fun h => by simp [applyAlmacenUpdate, h]⟩⟩
  · unfold update_sucursal
    rw [hnone]
  · obtain ⟨j, hj, hget, hset⟩ := updateFirst_eq_set
      (fun s => s.id_sucursal == sid && s.empresas_id_empresa == cu)
      (applySucursalUpdate u) db.sucursales r heq
    refine ⟨j, hj, hget, ?_⟩
    unfold update_sucursal
    rw [heq, hset]
  · unfold update_almacen
    rw [hnone]
  · obtain ⟨j, hj, hget, hset⟩ := updateFirst_eq_set
      (fun a => a.id_almacen == aid && a.empresas_id_empresa == cu)
      (applyAlmacenUpdate u) db.almacenes r heq
    refine ⟨j, hj, hget, ?_⟩
    unfold update_almacen
    rw [heq, hset]

/-- Witness for C9: a PATCH of branch 1 of `dbW` that supplies only
`nombre` changes only that field of that row, leaving the company-2 branch
untouched. -/
theorem c9_witness :
    update_sucursal 1 1
      { nombre := some "Centro II", direccion := none, telefono := none,
        estado := none } dbW =
      (.ok { id_sucursal := 1, nombre := "Centro II",
             direccion := "Av. Uno 100", telefono := none, estado := true,
             fecha_creacion := 10, empresas_id_empresa := 1 },
       { dbW with
          sucursales :=
            [{ id_sucursal := 1, nombre := "Centro II",
               direccion := "Av. Uno 100", telefono := none, estado := true,
               fecha_creacion := 10, empresas_id_empresa := 1 },
             { id_sucursal := 2, nombre := "Norte",
               direccion := "Av. Dos 200", telefono := some "5550002",
               estado := true, fecha_creacion := 11,
               empresas_id_empresa := 2 }] }) := by
  obtain ⟨j, hj, hget, hres⟩ := (c9_partial_update_frame.1 1 1
      { nombre := some "Centro II", direccion := none, telefono := none,
        estado := none } dbW).2
      { id_sucursal := 1, nombre := "Centro", direccion := "Av. Uno 100",
        telefono := none, estado := true, fecha_creacion := 10,
        empresas_id_empresa := 1 } (by rfl)
  have hj2 : j < 2 := hj
  interval_cases j
  · rw [hres]
    rfl
  · have h2 : dbW.sucursales.get ⟨1, hj⟩ =
        { id_sucursal := 2, nombre := "Norte", direccion := "Av. Dos 200",
          telefono := some "5550002", estado := true, fecha_creacion := 11,
          empresas_id_empresa := 2 } := rfl
    rw [h2] at hget
    exact absurd (congrArg Sucursal.id_sucursal hget) (by decide)

/-! ## Claim C10 -/

/-- C10: create-then-list round trip.  From a state containing a branch
with id `c.sucursal_id` owned by the caller's company, no link rows for
that branch, and a fresh next warehouse id (as the autoincrement key
guarantees), a successful `create_almacen` against that branch followed by
listing the branch's warehouses returns exactly the one created warehouse. -/
theorem c10_create_then_list_round_trip (cu : Nat) (c : AlmacenCreate)
    (db : DB)
    (hbranch : ∃ s ∈ db.sucursales,
      s.id_sucursal = c.sucursal_id ∧ s.empresas_id_empresa = cu)
    (hnolinks : ∀ l ∈ db.sucursales_almacenes,
      l.sucursales_id_sucursal ≠ c.sucursal_id)
    (hfresh : ∀ a ∈ db.almacenes, a.id_almacen ≠ db.nextAlmacenId) :
    ∃ W1, (create_almacen cu c db).1 = .ok W1 ∧
      (list_almacenes_de_sucursal cu c.sucursal_id
        (create_almacen cu c db).2).1 = .ok [W1] := by
  cases hfind : db.sucursales.find?
      (fun s => s.id_sucursal == c.sucursal_id && s.empresas_id_empresa == cu) with
  | none =>
      exfalso
      obtain ⟨s, hs, h1, h2⟩ := hbranch
      have := List.find?_eq_none.mp hfind s hs
      simp [h1, h2] at this
  | some B =>
      refine ⟨{ id_almacen := db.nextAlmacenId, nombre := c.nombre,
                descripcion := c.descripcion, es_principal := c.es_principal,
                estado := c.estado.getD true, fecha_creacion := db.now,
                empresas_id_empresa := cu }, ?_, ?_⟩
      · unfold create_almacen
        rw [hfind]
      · have hstate : (create_almacen cu c db).2 =
            { db with
               almacenes := db.almacenes ++
                 [{ id_almacen := db.nextAlmacenId, nombre := c.nombre,
                    descripcion := c.descripcion,
                    es_principal := c.es_principal,
                    estado := c.estado.getD true, fecha_creacion := db.now,
                    empresas_id_empresa := cu }]
               nextAlmacenId := db.nextAlmacenId + 1
               sucursales_almacenes := db.sucursales_almacenes ++
                 [{ sucursales_id_sucursal := c.sucursal_id,
                    almacenes_id_almacen := db.nextAlmacenId }] } := by
          unfold create_almacen
          rw [hfind]
        rw [hstate]
        unfold list_almacenes_de_sucursal
        dsimp only
        rw [hfind]
        have hlinksNil : db.sucursales_almacenes.filter
            (fun l => l.sucursales_id_sucursal == c.sucursal_id) = [] := by
          rw [List.filter_eq_nil_iff]
          intro l hl
          simpa [beq_iff_eq] using hnolinks l hl
        have halmNil : db.almacenes.filter
            (fun a => a.id_almacen == db.nextAlmacenId &&
                      a.empresas_id_empresa == cu) = [] := by
          rw [List.filter_eq_nil_iff]
          intro a ha
          simp only [Bool.and_eq_true, beq_iff_eq, not_and]
          intro hid
          exact absurd hid (hfresh a ha)
        rw [List.filter_append, hlinksNil, List.nil_append]
        simp only [List.filter_cons, List.filter_nil, beq_self_eq_true,
          if_pos, List.flatMap_cons, List.flatMap_nil, List.append_nil]
        rw [List.filter_append, halmNil, List.nil_append]
        simp [List.insertionSort, List.orderedInsert]

/-- Witness for C10: company 1 creates warehouse "Anexo" against branch 1
of `dbInactive` (which has no links) and then lists branch 1's warehouses,
getting exactly the new row back. -/
theorem c10_witness :
    (create_almacen 1
      { nombre := "Anexo", descripcion := none, es_principal := false,
        estado := none, sucursal_id := 1 } dbInactive).1 =
      .ok { id_almacen := 1, nombre := "Anexo", descripcion := none,
            es_principal := false, estado := true, fecha_creacion := 9,
            empresas_id_empresa := 1 } ∧
    (list_almacenes_de_sucursal 1 1
      (create_almacen 1
        { nombre := "Anexo", descripcion := none, es_principal := false,
          estado := none, sucursal_id := 1 } dbInactive).2).1 =
      .ok [{ id_almacen := 1, nombre := "Anexo", descripcion := none,
             es_principal := false, estado := true, fecha_creacion := 9,
             empresas_id_empresa := 1 }] := by
  obtain ⟨W1, h1, h2⟩ := c10_create_then_list_round_trip 1
    { nombre := "Anexo", descripcion := none, es_principal := false,
      estado := none, sucursal_id := 1 } dbInactive
    ⟨{ id_sucursal := 1, nombre := "Centro", direccion := "Av. Uno 100",
       telefono := none, estado := false, fecha_creacion := 5,
       empresas_id_empresa := 1 }, by simp [dbInactive], rfl, rfl⟩
    (by simp [dbInactive]) (by simp [dbInactive])
  have hW : W1 = { id_almacen := 1, nombre := "Anexo", descripcion := none,
                   es_principal := false, estado := true, fecha_creacion := 9,
                   empresas_id_empresa := 1 } := by
    have hval : (create_almacen 1
        { nombre := "Anexo", descripcion := none, es_principal := false,
          estado := none, sucursal_id := 1 } dbInactive).1 =
        .ok { id_almacen := 1, nombre := "Anexo", descripcion := none,
              es_principal := false, estado := true, fecha_creacion := 9,
              empresas_id_empresa := 1 } := rfl
    rw [h1] at hval
    exact (Except.ok.injEq _ _).mp hval
  rw [hW] at h1 h2
  exact ⟨h1, h2⟩

/-! ## State characterization of each handler -/

theorem list_sucursales_snd (cu : Nat) (db : DB) :
    (list_sucursales cu db).2 = db := rfl

theorem list_almacenes_snd (cu : Nat) (db : DB) :
    (list_almacenes cu db).2 = db := rfl

theorem get_sucursal_snd (cu sucursal_id : Nat) (db : DB) :
    (get_sucursal cu sucursal_id db).2 = db := by
  unfold get_sucursal
  split <;> rfl

theorem get_almacen_snd (cu almacen_id : Nat) (db : DB) :
    (get_almacen cu almacen_id db).2 = db := by
  unfold get_almacen
  split <;> rfl

theorem list_almacenes_de_sucursal_snd (cu sucursal_id : Nat) (db : DB) :
    (list_almacenes_de_sucursal cu sucursal_id db).2 = db := by
  unfold list_almacenes_de_sucursal
  split <;> rfl

theorem list_usuarios_de_sucursal_snd (cu sucursal_id : Nat) (db : DB) :
    (list_usuarios_de_sucursal cu sucursal_id db).2 = db := by
  unfold list_usuarios_de_sucursal
  split <;> rfl

theorem list_sucursales_de_almacen_snd (cu almacen_id : Nat) (db : DB) :
    (list_sucursales_de_almacen cu almacen_id db).2 = db := by
  unfold list_sucursales_de_almacen
  split <;> rfl

theorem update_sucursal_snd (cu sucursal_id : Nat) (u : SucursalUpdate)
    (db : DB) :
    (update_sucursal cu sucursal_id u db).2 = db ∨
    (update_sucursal cu sucursal_id u db).2 =
      { db with
         sucursales := updateFirst
           (fun s => s.id_sucursal == sucursal_id && s.empresas_id_empresa == cu)
           (applySucursalUpdate u) db.sucursales } := by
  unfold update_sucursal
  split
  · left; rfl
  · right; rfl

theorem delete_sucursal_snd (cu sucursal_id : Nat) (db : DB) :
    (delete_sucursal cu sucursal_id db).2 = db ∨
    (delete_sucursal cu sucursal_id db).2 =
      { db with
         sucursales := updateFirst
           (fun s => s.id_sucursal == sucursal_id && s.empresas_id_empresa == cu)
           (fun s => { s with estado := false }) db.sucursales } := by
  unfold delete_sucursal
  split
  · left; rfl
  · right; rfl

theorem update_almacen_snd (cu almacen_id : Nat) (u : AlmacenUpdate)
    (db : DB) :
    (update_almacen cu almacen_id u db).2 = db ∨
    (update_almacen cu almacen_id u db).2 =
      { db with
         almacenes := updateFirst
           (fun a => a.id_almacen == almacen_id && a.empresas_id_empresa == cu)
           (applyAlmacenUpdate u) db.almacenes } := by
  unfold update_almacen
  split
  · left; rfl
  · right; rfl

theorem delete_almacen_snd (cu almacen_id : Nat) (db : DB) :
    (delete_almacen cu almacen_id db).2 = db ∨
    (delete_almacen cu almacen_id db).2 =
      { db with
         almacenes := updateFirst
           (fun a => a.id_almacen == almacen_id && a.empresas_id_empresa == cu)
           (fun a => { a with estado := false }) db.almacenes } := by
  unfold delete_almacen
  split
  · left; rfl
  · right; rfl

theorem assign_usuario_v1_snd (cu sucursal_id : Nat)
    (p : UsuarioSucursalCreate) (db : DB) :
    (assign_usuario_to_sucursal_v1 cu sucursal_id p db).2 = db ∨
    (assign_usuario_to_sucursal_v1 cu sucursal_id p db).2 =
      { db with
         usuarios_sucursales := db.usuarios_sucursales ++
           [{ usuarios_id_usuario := p.usuario_id
              sucursales_id_sucursal := sucursal_id }] } := by
  unfold assign_usuario_to_sucursal_v1
  split
  · left; rfl
  · split
    · left; rfl
    · right; rfl

theorem assign_usuario_v2_snd (cu sucursal_id : Nat)
    (p : UsuarioSucursalBodyV2) (db : DB) :
    (assign_usuario_to_sucursal_v2 cu sucursal_id p db).2 = db ∨
    (assign_usuario_to_sucursal_v2 cu sucursal_id p db).2 =
      { db with
         usuarios_sucursales := db.usuarios_sucursales ++
           [{ usuarios_id_usuario := p.usuarios_id_usuario
              sucursales_id_sucursal := sucursal_id }] } := by
  unfold assign_usuario_to_sucursal_v2
  split
  · left; rfl
  · split
    · left; rfl
    · split
      · left; rfl
      · right; rfl

theorem remove_usuario_snd (cu sucursal_id usuario_id : Nat) (db : DB) :
    (remove_usuario_from_sucursal cu sucursal_id usuario_id db).2 = db ∨
    (remove_usuario_from_sucursal cu sucursal_id usuario_id db).2 =
      { db with
         usuarios_sucursales := eraseFirst
           (fun a => a.usuarios_id_usuario == usuario_id &&
                     a.sucursales_id_sucursal == sucursal_id)
           db.usuarios_sucursales } := by
  unfold remove_usuario_from_sucursal
  split
  · left; rfl
  · split
    · left; rfl
    · right; rfl

theorem create_almacen_snd (cu : Nat) (c : AlmacenCreate) (db : DB) :
    (create_almacen cu c db).2 = db ∨
    (create_almacen cu c db).2 =
      { db with
         almacenes := db.almacenes ++
           [{ id_almacen := db.nextAlmacenId, nombre := c.nombre,
              descripcion := c.descripcion, es_principal := c.es_principal,
              estado := c.estado.getD true, fecha_creacion := db.now,
              empresas_id_empresa := cu }]
         nextAlmacenId := db.nextAlmacenId + 1
         sucursales_almacenes := db.sucursales_almacenes ++
           [{ sucursales_id_sucursal := c.sucursal_id,
              almacenes_id_almacen := db.nextAlmacenId }] } := by
  unfold create_almacen
  split
  · left; rfl
  · right; rfl

theorem link_sucursal_to_almacen_snd (cu almacen_id : Nat)
    (p : SucursalAlmacenCreate) (db : DB) :
    (link_sucursal_to_almacen cu almacen_id p db).2 = db ∨
    (link_sucursal_to_almacen cu almacen_id p db).2 =
      { db with
         sucursales_almacenes := db.sucursales_almacenes ++
           [{ sucursales_id_sucursal := p.sucursal_id,
              almacenes_id_almacen := almacen_id }] } := by
  unfold link_sucursal_to_almacen
  split
  · left; rfl
  · split
    · left; rfl
    · right; rfl

/-- Sequential application of exposed operations. -/
def applyOps : List Op → DB → DB
  | [], db => db
  | op :: ops, db => applyOps ops (applyOp op db)

theorem getElem?_updateFirst (p : α → Bool) (f : α → α) (l : List α)
    (i : Nat) :
    (updateFirst p f l)[i]? = l[i]? ∨
    ∃ z, l[i]? = some z ∧ (updateFirst p f l)[i]? = some (f z) := by
  induction l generalizing i with
  | nil => left; rfl
  | cons a as ih =>
      cases hp : p a with
      | true =>
          cases i with
          | zero => right; exact ⟨a, by simp, by simp [updateFirst, hp]⟩
          | succ n => left; simp [updateFirst, hp]
      | false =>
          cases i with
          | zero => left; simp [updateFirst, hp]
          | succ n =>
              rcases ih n with h | ⟨z, hz, h⟩
              · left
                simpa [updateFirst, hp] using h
              · right
                exact ⟨z, by simpa using hz, by simpa [updateFirst, hp] using h⟩

/-- Positional preservation of inactive rows between two row lists: rows
are never removed or reordered by any handler, so a list position
identifies one entity across states. -/
@[reducible] def PreservesInactive (st : β → Bool) (l l' : List β) : Prop :=
  ∀ (i : Nat) (x : β), l[i]? = some x → st x = false →
    ∃ y, l'[i]? = some y ∧ st y = false

theorem preservesInactive_refl (st : β → Bool) (l : List β) :
    PreservesInactive st l l :=
  fun _ x hx hst => ⟨x, hx, hst⟩

theorem preservesInactive_cast (st : β → Bool) {l l1 l2 : List β}
    (h : l2 = l1) (hp : PreservesInactive st l l1) :
    PreservesInactive st l l2 := h ▸ hp

theorem preservesInactive_append (st : β → Bool) (l t : List β) :
    PreservesInactive st l (l ++ t) := by
  intro i x hx hst
  refine ⟨x, ?_, hst⟩
  rw [List.getElem?_append_left (List.getElem?_eq_some.mp hx).1]
  exact hx

theorem preservesInactive_updateFirst (st p : β → Bool) (f : β → β)
    (hf : ∀ x, st x = false → st (f x) = false) (l : List β) :
    PreservesInactive st l (updateFirst p f l) := by
  intro i x hx hst
  rcases getElem?_updateFirst p f l i with h | ⟨z, hz, h⟩
  · exact ⟨x, h.trans hx, hst⟩
  · have hzx : z = x := Option.some.inj (hz.symm.trans hx)
    subst hzx
    exact ⟨f z, h, hf z hst⟩

theorem preservesInactive_trans (st : β → Bool) {l1 l2 l3 : List β}
    (h12 : PreservesInactive st l1 l2) (h23 : PreservesInactive st l2 l3) :
    PreservesInactive st l1 l3 := by
  intro i x hx hst
  obtain ⟨y, hy, hsty⟩ := h12 i x hx hst
  exact h23 i y hy hsty

theorem unlink_sucursal_from_almacen_snd (cu almacen_id sucursal_id : Nat)
    (db : DB) :
    (unlink_sucursal_from_almacen cu almacen_id sucursal_id db).2 = db ∨
    (unlink_sucursal_from_almacen cu almacen_id sucursal_id db).2 =
      { db with
         sucursales_almacenes := eraseFirst
           (fun l => l.almacenes_id_almacen == almacen_id &&
                     l.sucursales_id_sucursal == sucursal_id)
           db.sucursales_almacenes } := by
  unfold unlink_sucursal_from_almacen
  split
  · left; rfl
  · split
    · left; rfl
    · right; rfl

/-- One exposed operation that does not supply `estado` in a partial update
never flips an inactive row back to active (in either entity table). -/
theorem applyOp_preserves_inactive (op : Op)
    (hop : op.suppliesEstado = false) (db : DB) :
    PreservesInactive Sucursal.estado db.sucursales (applyOp op db).sucursales ∧
    PreservesInactive Almacen.estado db.almacenes (applyOp op db).almacenes := by
  cases op with
  | createSucursalOp cu c =>
      exact ⟨preservesInactive_append _ _ _, preservesInactive_refl _ _⟩
  | listSucursalesOp cu =>
      exact ⟨preservesInactive_refl _ _, preservesInactive_refl _ _⟩
  | getSucursalOp cu sid =>
      exact ⟨preservesInactive_cast _
          (congrArg DB.sucursales (get_sucursal_snd cu sid db))
          (preservesInactive_refl _ _),
        preservesInactive_cast _
          (congrArg DB.almacenes (get_sucursal_snd cu sid db))
          (preservesInactive_refl _ _)⟩
  | updateSucursalOp cu sid u =>
      have hu : u.estado = none := by
        simpa [Op.suppliesEstado, Option.isSome_iff_exists] using hop
      rcases update_sucursal_snd cu sid u db with h | h
      · exact ⟨preservesInactive_cast _ (congrArg DB.sucursales h)
            (preservesInactive_refl _ _),
          preservesInactive_cast _ (congrArg DB.almacenes h)
            (preservesInactive_refl _ _)⟩
      · exact ⟨preservesInactive_cast _ (congrArg DB.sucursales h)
            (preservesInactive_updateFirst _ _ _
              (fun x hx => by simp [applySucursalUpdate, hu, hx]) _),
          preservesInactive_cast _ (congrArg DB.almacenes h)
            (preservesInactive_refl _ _)⟩
  | deleteSucursalOp cu sid =>
      rcases delete_sucursal_snd cu sid db with h | h
      · exact ⟨preservesInactive_cast _ (congrArg DB.sucursales h)
            (preservesInactive_refl _ _),
          preservesInactive_cast _ (congrArg DB.almacenes h)
            (preservesInactive_refl _ _)⟩
      · exact ⟨preservesInactive_cast _ (congrArg DB.sucursales h)
            (preservesInactive_updateFirst _ _ _ (fun _ _ => rfl) _),
          preservesInactive_cast _ (congrArg DB.almacenes h)
            (preservesInactive_refl _ _)⟩
  | listAlmacenesDeSucursalOp cu sid =>
      exact ⟨preservesInactive_cast _
          (congrArg DB.sucursales (list_almacenes_de_sucursal_snd cu sid db))
          (preservesInactive_refl _ _),
        preservesInactive_cast _
          (congrArg DB.almacenes (list_almacenes_de_sucursal_snd cu sid db))
          (preservesInactive_refl _ _)⟩
  | listUsuariosDeSucursalOp cu sid =>
      exact ⟨preservesInactive_cast _
          (congrArg DB.sucursales (list_usuarios_de_sucursal_snd cu sid db))
          (preservesInactive_refl _ _),
        preservesInactive_cast _
          (congrArg DB.almacenes (list_usuarios_de_sucursal_snd cu sid db))
          (preservesInactive_refl _ _)⟩
  | assignUsuarioV1Op cu sid p =>
      rcases assign_usuario_v1_snd cu sid p db with h | h <;>
        exact ⟨preservesInactive_cast _ (congrArg DB.sucursales h)
            (preservesInactive_refl _ _),
          preservesInactive_cast _ (congrArg DB.almacenes h)
            (preservesInactive_refl _ _)⟩
  | assignUsuarioV2Op cu sid p =>
      rcases assign_usuario_v2_snd cu sid p db with h | h <;>
        exact ⟨preservesInactive_cast _ (congrArg DB.sucursales h)
            (preservesInactive_refl _ _),
          preservesInactive_cast _ (congrArg DB.almacenes h)
            (preservesInactive_refl _ _)⟩
  | removeUsuarioOp cu sid uid =>
      rcases remove_usuario_snd cu sid uid db with h | h <;>
        exact ⟨preservesInactive_cast _ (congrArg DB.sucursales h)
            (preservesInactive_refl _ _),
          preservesInactive_cast _ (congrArg DB.almacenes h)
            (preservesInactive_refl _ _)⟩
  | listAlmacenesOp cu =>
      exact ⟨preservesInactive_refl _ _, preservesInactive_refl _ _⟩
  | getAlmacenOp cu aid =>
      exact ⟨preservesInactive_cast _
          (congrArg DB.sucursales (get_almacen_snd cu aid db))
          (preservesInactive_refl _ _),
        preservesInactive_cast _
          (congrArg DB.almacenes (get_almacen_snd cu aid db))
          (preservesInactive_refl _ _)⟩
  | createAlmacenOp cu c =>
      rcases create_almacen_snd cu c db with h | h
      · exact ⟨preservesInactive_cast _ (congrArg DB.sucursales h)
            (preservesInactive_refl _ _),
          preservesInactive_cast _ (congrArg DB.almacenes h)
            (preservesInactive_refl _ _)⟩
      · exact ⟨preservesInactive_cast _ (congrArg DB.sucursales h)
            (preservesInactive_refl _ _),
          preservesInactive_cast _ (congrArg DB.almacenes h)
            (preservesInactive_append _ _ _)⟩
  | updateAlmacenOp cu aid u =>
      have hu : u.estado = none := by
        simpa [Op.suppliesEstado, Option.isSome_iff_exists] using hop
      rcases update_almacen_snd cu aid u db with h | h
      · exact ⟨preservesInactive_cast _ (congrArg DB.sucursales h)
            (preservesInactive_refl _ _),
          preservesInactive_cast _ (congrArg DB.almacenes h)
            (preservesInactive_refl _ _)⟩
      · exact ⟨preservesInactive_cast _ (congrArg DB.sucursales h)
            (preservesInactive_refl _ _),
          preservesInactive_cast _ (congrArg DB.almacenes h)
            (preservesInactive_updateFirst _ _ _
              (fun x hx => by simp [applyAlmacenUpdate, hu, hx]) _)⟩
  | deleteAlmacenOp cu aid =>
      rcases delete_almacen_snd cu aid db with h | h
      · exact ⟨preservesInactive_cast _ (congrArg DB.sucursales h)
            (preservesInactive_refl _ _),
          preservesInactive_cast _ (congrArg DB.almacenes h)
            (preservesInactive_refl _ _)⟩
      · exact ⟨preservesInactive_cast _ (congrArg DB.sucursales h)
            (preservesInactive_refl _ _),
          preservesInactive_cast _ (congrArg DB.almacenes h)
            (preservesInactive_updateFirst _ _ _ (fun _ _ => rfl) _)⟩
  | listSucursalesDeAlmacenOp cu aid =>
      exact ⟨preservesInactive_cast _
          (congrArg DB.sucursales (list_sucursales_de_almacen_snd cu aid db))
          (preservesInactive_refl _ _),
        preservesInactive_cast _
          (congrArg DB.almacenes (list_sucursales_de_almacen_snd cu aid db))
          (preservesInactive_refl _ _)⟩
  | linkSucursalToAlmacenOp cu aid p =>
      rcases link_sucursal_to_almacen_snd cu aid p db with h | h <;>
        exact ⟨preservesInactive_cast _ (congrArg DB.sucursales h)
            (preservesInactive_refl _ _),
          preservesInactive_cast _ (congrArg DB.almacenes h)
            (preservesInactive_refl _ _)⟩
  | unlinkSucursalFromAlmacenOp cu aid sid =>
      rcases unlink_sucursal_from_almacen_snd cu aid sid db with h | h <;>
        exact ⟨preservesInactive_cast _ (congrArg DB.sucursales h)
            (preservesInactive_refl _ _),
          preservesInactive_cast _ (congrArg DB.almacenes h)
            (preservesInactive_refl _ _)⟩

/-- Sequential closure of `applyOp_preserves_inactive`. -/
theorem applyOps_preserves_inactive (ops : List Op)
    (hops : ∀ op ∈ ops, op.suppliesEstado = false) (db : DB) :
    PreservesInactive Sucursal.estado db.sucursales
      (applyOps ops db).sucursales ∧
    PreservesInactive Almacen.estado db.almacenes
      (applyOps ops db).almacenes := by
  induction ops generalizing db with
  | nil => exact ⟨preservesInactive_refl _ _, preservesInactive_refl _ _⟩
  | cons op ops ih =>
      have h1 := applyOp_preserves_inactive op (hops op (by simp)) db
      have h2 := ih (fun o ho => hops o (by simp [ho])) (applyOp op db)
      exact ⟨preservesInactive_trans _ h1.1 h2.1,
             preservesInactive_trans _ h1.2 h2.2⟩

/-! ## Claim C4 -/

/-- Counterexample for C4: the inactive branch of `dbInactive` becomes
active again after the exposed partial-update operation that supplies
`estado = true` — an Inactive→Active transition reachable through the
exposed operations, because the update schemas include `estado`. -/
theorem c4_counterexample :
    dbInactive.sucursales.map Sucursal.estado = [false] ∧
    (applyOps [Op.updateSucursalOp 1 1
        { nombre := none, direccion := none, telefono := none,
          estado := some true }] dbInactive).sucursales.map
      Sucursal.estado = [true] := by
  constructor <;> rfl

/-- C4 (amended): Inactive is absorbing for every exposed operation except
a partial update that supplies the `estado` field; for every sequence of
such operations, any branch or warehouse row that was inactive is still
inactive at its position afterwards (rows are only appended or rewritten
in place, so positions identify entities). -/
theorem c4_amended_one_way_without_estado_update (ops : List Op)
    (hops : ∀ op ∈ ops, op.suppliesEstado = false) (db : DB) :
    (∀ (i : Nat) (s s' : Sucursal), db.sucursales[i]? = some s →
       (applyOps ops db).sucursales[i]? = some s' →
       s.estado = false → s'.estado = false) ∧
    (∀ (i : Nat) (a a' : Almacen), db.almacenes[i]? = some a →
       (applyOps ops db).almacenes[i]? = some a' →
       a.estado = false → a'.estado = false) := by
  have h := applyOps_preserves_inactive ops hops db
  constructor
  · intro i s s' hs hs' hst
    obtain ⟨y, hy, hsty⟩ := h.1 i s hs hst
    have : s' = y := Option.some.inj ((hs'.symm).trans hy)
    rw [this]
    exact hsty
  · intro i a a' ha ha' hst
    obtain ⟨y, hy, hsty⟩ := h.2 i a ha hst
    have : a' = y := Option.some.inj ((ha'.symm).trans hy)
    rw [this]
    exact hsty

/-- Witness for C4 (amended): after a delete (an operation not supplying
`estado`), the already-inactive branch of `dbInactive` is still inactive. -/
theorem c4_amended_witness :
    ({ id_sucursal := 1, nombre := "Centro", direccion := "Av. Uno 100",
       telefono := none, estado := false, fecha_creacion := 5,
       empresas_id_empresa := 1 } : Sucursal).estado = false :=
  (c4_amended_one_way_without_estado_update [Op.deleteSucursalOp 1 1]
      (by
        intro op hop
        rw [List.mem_singleton] at hop
        subst hop
        rfl)
      dbInactive).1 0
    { id_sucursal := 1, nombre := "Centro", direccion := "Av. Uno 100",
      telefono := none, estado := false, fecha_creacion := 5,
      empresas_id_empresa := 1 }
    { id_sucursal := 1, nombre := "Centro", direccion := "Av. Uno 100",
      telefono := none, estado := false, fecha_creacion := 5,
      empresas_id_empresa := 1 }
    (by rfl) (by rfl) (by rfl)

/-! ## Claim C8 -/

/-- The same-company link invariant: every `sucursales_almacenes` row
references an existing branch and an existing warehouse whose owning
company ids are equal (both were validated against the acting user's
company when the link was created, and no exposed operation rewrites a
company id). -/
@[reducible] def LinkInv (db : DB) : Prop :=
  ∀ l ∈ db.sucursales_almacenes,
    ∃ s ∈ db.sucursales,
      s.id_sucursal = l.sucursales_id_sucursal ∧
      ∃ a ∈ db.almacenes,
        a.id_almacen = l.almacenes_id_almacen ∧
        s.empresas_id_empresa = a.empresas_id_empresa

theorem linkInv_cast {db1 db2 : DB} (h : db1 = db2) (hi : LinkInv db2) :
    LinkInv db1 := h ▸ hi

theorem linkInv_append_sucursales (db : DB) (t : List Sucursal)
    (hInv : LinkInv db) :
    LinkInv { db with sucursales := db.sucursales ++ t } := by
  intro l hl
  obtain ⟨s, hs, hsid, a, ha, haid, he⟩ := hInv l hl
  exact ⟨s, List.mem_append_left t hs, hsid, a, ha, haid, he⟩

theorem linkInv_updateFirst_sucursales (db : DB) (p : Sucursal → Bool)
    (f : Sucursal → Sucursal)
    (hid : ∀ s, (f s).id_sucursal = s.id_sucursal)
    (hemp : ∀ s, (f s).empresas_id_empresa = s.empresas_id_empresa)
    (hInv : LinkInv db) :
    LinkInv { db with sucursales := updateFirst p f db.sucursales } := by
  intro l hl
  obtain ⟨s, hs, hsid, a, ha, haid, he⟩ := hInv l hl
  obtain ⟨s', hs', hsid', he'⟩ :=
    @exists_mem_updateFirst _
      (fun x => x.id_sucursal = l.sucursales_id_sucursal ∧
                x.empresas_id_empresa = s.empresas_id_empresa)
      p f db.sucursales
      (fun x hx => ⟨(hid x).trans hx.1, (hemp x).trans hx.2⟩)
      ⟨s, hs, hsid, rfl⟩
  exact ⟨s', hs', hsid', a, ha, haid, he'.trans he⟩

theorem linkInv_updateFirst_almacenes (db : DB) (p : Almacen → Bool)
    (f : Almacen → Almacen)
    (hid : ∀ a, (f a).id_almacen = a.id_almacen)
    (hemp : ∀ a, (f a).empresas_id_empresa = a.empresas_id_empresa)
    (hInv : LinkInv db) :
    LinkInv { db with almacenes := updateFirst p f db.almacenes } := by
  intro l hl
  obtain ⟨s, hs, hsid, a, ha, haid, he⟩ := hInv l hl
  obtain ⟨a', ha', haid', he'⟩ :=
    @exists_mem_updateFirst _
      (fun x => x.id_almacen = l.almacenes_id_almacen ∧
                x.empresas_id_empresa = a.empresas_id_empresa)
      p f db.almacenes
      (fun x hx => ⟨(hid x).trans hx.1, (hemp x).trans hx.2⟩)
      ⟨a, ha, haid, rfl⟩
  exact ⟨s, hs, hsid, a', ha', haid', he.trans he'.symm⟩

theorem linkInv_eraseFirst_links (db : DB) (p : SucursalAlmacen → Bool)
    (hInv : LinkInv db) :
    LinkInv { db with
      sucursales_almacenes := eraseFirst p db.sucursales_almacenes } := by
  intro l hl
  exact hInv l (mem_of_mem_eraseFirst p _ l hl)

/-- Every exposed operation preserves the same-company link invariant. -/
theorem applyOp_linkInv (op : Op) (db : DB) (hInv : LinkInv db) :
    LinkInv (applyOp op db) := by
  cases op with
  | createSucursalOp cu c =>
      exact linkInv_append_sucursales db _ hInv
  | listSucursalesOp cu => exact hInv
  | getSucursalOp cu sid =>
      exact linkInv_cast (get_sucursal_snd cu sid db) hInv
  | updateSucursalOp cu sid u =>
      rcases update_sucursal_snd cu sid u db with h | h
      · exact linkInv_cast h hInv
      · exact linkInv_cast h
          (linkInv_updateFirst_sucursales db _ _ (fun _ => rfl) (fun _ => rfl) hInv)
  | deleteSucursalOp cu sid =>
      rcases delete_sucursal_snd cu sid db with h | h
      · exact linkInv_cast h hInv
      · exact linkInv_cast h
          (linkInv_updateFirst_sucursales db _ _ (fun _ => rfl) (fun _ => rfl) hInv)
  | listAlmacenesDeSucursalOp cu sid =>
      exact linkInv_cast (list_almacenes_de_sucursal_snd cu sid db) hInv
  | listUsuariosDeSucursalOp cu sid =>
      exact linkInv_cast (list_usuarios_de_sucursal_snd cu sid db) hInv
  | assignUsuarioV1Op cu sid p =>
      rcases assign_usuario_v1_snd cu sid p db with h | h <;>
        exact linkInv_cast h hInv
  | assignUsuarioV2Op cu sid p =>
      rcases assign_usuario_v2_snd cu sid p db with h | h <;>
        exact linkInv_cast h hInv
  | removeUsuarioOp cu sid uid =>
      rcases remove_usuario_snd cu sid uid db with h | h <;>
        exact linkInv_cast h hInv
  | listAlmacenesOp cu => exact hInv
  | getAlmacenOp cu aid =>
      exact linkInv_cast (get_almacen_snd cu aid db) hInv
  | createAlmacenOp cu c =>
      cases hfind : db.sucursales.find?
          (fun s => s.id_sucursal == c.sucursal_id &&
                    s.empresas_id_empresa == cu) with
      | none =>
          have h : (create_almacen cu c db).2 = db := by
            unfold create_almacen
            rw [hfind]
          exact linkInv_cast h hInv
      | some B =>
          have h : (create_almacen cu c db).2 =
              { db with
                 almacenes := db.almacenes ++
                   [{ id_almacen := db.nextAlmacenId, nombre := c.nombre,
                      descripcion := c.descripcion,
                      es_principal := c.es_principal,
                      estado := c.estado.getD true, fecha_creacion := db.now,
                      empresas_id_empresa := cu }]
                 nextAlmacenId := db.nextAlmacenId + 1
                 sucursales_almacenes := db.sucursales_almacenes ++
                   [{ sucursales_id_sucursal := c.sucursal_id,
                      almacenes_id_almacen := db.nextAlmacenId }] } := by
            unfold create_almacen
            rw [hfind]
          refine linkInv_cast h ?_
          intro l hl
          rcases List.mem_append.mp hl with hl | hl
          · obtain ⟨s, hs, hsid, a, ha, haid, he⟩ := hInv l hl
            exact ⟨s, hs, hsid, a, List.mem_append_left _ ha, haid, he⟩
          · rw [List.mem_singleton] at hl
            subst hl
            have hB := List.find?_some hfind
            simp only [Bool.and_eq_true, beq_iff_eq] at hB
            exact ⟨B, List.mem_of_find?_eq_some hfind, hB.1,
                   { id_almacen := db.nextAlmacenId, nombre := c.nombre,
                     descripcion := c.descripcion,
                     es_principal := c.es_principal,
                     estado := c.estado.getD true, fecha_creacion := db.now,
                     empresas_id_empresa := cu },
                   List.mem_append_right _ (List.mem_singleton.mpr rfl),
                   rfl, hB.2⟩
  | updateAlmacenOp cu aid u =>
      rcases update_almacen_snd cu aid u db with h | h
      · exact linkInv_cast h hInv
      · exact linkInv_cast h
          (linkInv_updateFirst_almacenes db _ _ (fun _ => rfl) (fun _ => rfl) hInv)
  | deleteAlmacenOp cu aid =>
      rcases delete_almacen_snd cu aid db with h | h
      · exact linkInv_cast h hInv
      · exact linkInv_cast h
          (linkInv_updateFirst_almacenes db _ _ (fun _ => rfl) (fun _ => rfl) hInv)
  | listSucursalesDeAlmacenOp cu aid =>
      exact linkInv_cast (list_sucursales_de_almacen_snd cu aid db) hInv
  | linkSucursalToAlmacenOp cu aid p =>
      cases hfindA : db.almacenes.find?
          (fun a => a.id_almacen == aid && a.empresas_id_empresa == cu) with
      | none =>
          have h : (link_sucursal_to_almacen cu aid p db).2 = db := by
            unfold link_sucursal_to_almacen
            rw [hfindA]
          exact linkInv_cast h hInv
      | some A =>
          cases hfindS : db.sucursales.find?
              (fun s => s.id_sucursal == p.sucursal_id &&
                        s.empresas_id_empresa == cu) with
          | none =>
              have h : (link_sucursal_to_almacen cu aid p db).2 = db := by
                unfold link_sucursal_to_almacen
                rw [hfindA, hfindS]
              exact linkInv_cast h hInv
          | some S =>
              have h : (link_sucursal_to_almacen cu aid p db).2 =
                  { db with
                     sucursales_almacenes := db.sucursales_almacenes ++
                       [{ sucursales_id_sucursal := p.sucursal_id,
                          almacenes_id_almacen := aid }] } := by
                unfold link_sucursal_to_almacen
                rw [hfindA, hfindS]
              refine linkInv_cast h ?_
              intro l hl
              rcases List.mem_append.mp hl with hl | hl
              · exact hInv l hl
              · rw [List.mem_singleton] at hl
                subst hl
                have hA := List.find?_some hfindA
                have hS := List.find?_some hfindS
                simp only [Bool.and_eq_true, beq_iff_eq] at hA hS
                exact ⟨S, List.mem_of_find?_eq_some hfindS, hS.1,
                       A, List.mem_of_find?_eq_some hfindA, hA.1,
                       hS.2.trans hA.2.symm⟩
  | unlinkSucursalFromAlmacenOp cu aid sid =>
      rcases unlink_sucursal_from_almacen_snd cu aid sid db with h | h
      · exact linkInv_cast h hInv
      · exact linkInv_cast h (linkInv_eraseFirst_links db _ hInv)

/-- C8: same-company link invariant.  Every exposed operation preserves the
invariant that every branch-warehouse link connects an existing branch and
an existing warehouse with equal company ids, and the two link-creating
handlers only ever append a link whose referenced branch and warehouse both
belong to the acting user's company. -/
theorem c8_same_company_link_invariant :
    (∀ op db, LinkInv db → LinkInv (applyOp op db)) ∧
    (∀ cu almacen_id p db r db',
       link_sucursal_to_almacen cu almacen_id p db = (.ok r, db') →
       db'.sucursales_almacenes = db.sucursales_almacenes ++
         [{ sucursales_id_sucursal := p.sucursal_id,
            almacenes_id_almacen := almacen_id }] ∧
       (∃ s ∈ db.sucursales,
          s.id_sucursal = p.sucursal_id ∧ s.empresas_id_empresa = cu) ∧
       (∃ a ∈ db.almacenes,
          a.id_almacen = almacen_id ∧ a.empresas_id_empresa = cu)) ∧
    (∀ cu c db r db',
       create_almacen cu c db = (.ok r, db') →
       db'.sucursales_almacenes = db.sucursales_almacenes ++
         [{ sucursales_id_sucursal := c.sucursal_id,
            almacenes_id_almacen := db.nextAlmacenId }] ∧
       (∃ s ∈ db.sucursales,
          s.id_sucursal = c.sucursal_id ∧ s.empresas_id_empresa = cu) ∧
       r.empresas_id_empresa = cu ∧ r.id_almacen = db.nextAlmacenId ∧
       r ∈ db'.almacenes) := by
  refine ⟨fun op db h => applyOp_linkInv op db h, ?_, ?_⟩
  · intro cu aid p db r db' h
    cases hfindA : db.almacenes.find?
        (fun a => a.id_almacen == aid && a.empresas_id_empresa == cu) with
    | none =>
        unfold link_sucursal_to_almacen at h
        rw [hfindA] at h
        exact absurd (congrArg Prod.fst h) (by simp)
    | some A =>
        cases hfindS : db.sucursales.find?
            (fun s => s.id_sucursal == p.sucursal_id &&
                      s.empresas_id_empresa == cu) with
        | none =>
            unfold link_sucursal_to_almacen at h
            rw [hfindA, hfindS] at h
            exact absurd (congrArg Prod.fst h) (by simp)
        | some S =>
            unfold link_sucursal_to_almacen at h
            rw [hfindA, hfindS] at h
            have hdb : db' =
                { db with
                   sucursales_almacenes := db.sucursales_almacenes ++
                     [{ sucursales_id_sucursal := p.sucursal_id,
                        almacenes_id_almacen := aid }] } :=
              (congrArg Prod.snd h).symm
            have hA := List.find?_some hfindA
            have hS := List.find?_some hfindS
            simp only [Bool.and_eq_true, beq_iff_eq] at hA hS
            subst hdb
            exact ⟨rfl,
                   ⟨S, List.mem_of_find?_eq_some hfindS, hS.1, hS.2⟩,
                   ⟨A, List.mem_of_find?_eq_some hfindA, hA.1, hA.2⟩⟩
  · intro cu c db r db' h
    cases hfind : db.sucursales.find?
        (fun s => s.id_sucursal == c.sucursal_id &&
                  s.empresas_id_empresa == cu) with
    | none =>
        unfold create_almacen at h
        rw [hfind] at h
        exact absurd (congrArg Prod.fst h) (by simp)
    | some B =>
        unfold create_almacen at h
        rw [hfind] at h
        have hr : r = { id_almacen := db.nextAlmacenId, nombre := c.nombre,
                        descripcion := c.descripcion,
                        es_principal := c.es_principal,
                        estado := c.estado.getD true,
                        fecha_creacion := db.now,
                        empresas_id_empresa := cu } :=
          (Except.ok.inj (congrArg Prod.fst h)).symm
        have hdb : db' =
            { db with
               almacenes := db.almacenes ++
                 [{ id_almacen := db.nextAlmacenId, nombre := c.nombre,
                    descripcion := c.descripcion,
                    es_principal := c.es_principal,
                    estado := c.estado.getD true, fecha_creacion := db.now,
                    empresas_id_empresa := cu }]
               nextAlmacenId := db.nextAlmacenId + 1
               sucursales_almacenes := db.sucursales_almacenes ++
                 [{ sucursales_id_sucursal := c.sucursal_id,
                    almacenes_id_almacen := db.nextAlmacenId }] } :=
          (congrArg Prod.snd h).symm
        have hB := List.find?_some hfind
        simp only [Bool.and_eq_true, beq_iff_eq] at hB
        subst hdb
        subst hr
        exact ⟨rfl, ⟨B, List.mem_of_find?_eq_some hfind, hB.1, hB.2⟩,
               rfl, rfl,
               List.mem_append_right _ (List.mem_singleton.mpr rfl)⟩

/-- Witness for C8: the invariant holds on `dbW` and is preserved by a
successful link operation; and a successful create-warehouse yields a row
owned by the acting company. -/
theorem c8_witness :
    LinkInv (applyOp (Op.linkSucursalToAlmacenOp 1 1 { sucursal_id := 1 }) dbW) ∧
    ({ id_almacen := 2, nombre := "Nuevo", descripcion := none,
       es_principal := false, estado := true, fecha_creacion := 20,
       empresas_id_empresa := 1 } : Almacen).empresas_id_empresa = 1 :=
  ⟨c8_same_company_link_invariant.1
      (Op.linkSucursalToAlmacenOp 1 1 { sucursal_id := 1 }) dbW (by decide),
   (c8_same_company_link_invariant.2.2 1
      { nombre := "Nuevo", descripcion := none, es_principal := false,
        estado := none, sucursal_id := 1 } dbW
      { id_almacen := 2, nombre := "Nuevo", descripcion := none,
        es_principal := false, estado := true, fecha_creacion := 20,
        empresas_id_empresa := 1 }
      { dbW with
         almacenes := dbW.almacenes ++
           [{ id_almacen := 2, nombre := "Nuevo", descripcion := none,
              es_principal := false, estado := true, fecha_creacion := 20,
              empresas_id_empresa := 1 }]
         nextAlmacenId := 3
         sucursales_almacenes := dbW.sucursales_almacenes ++
           [{ sucursales_id_sucursal := 1, almacenes_id_almacen := 2 }] }
      (by rfl)).2.2.1⟩

end CompanyService
